import Mathlib

/-!
# Verification of the curalink-server backend

A shallow embedding of the Express handlers in `src/index.js` (with the
deployed variant `src/unnamed/part_000` noted where the two differ).
Request handlers become pure Lean functions from their inputs — the parsed
request fields, the persistent store, and the outcomes of the upstream HTTP
calls they issue (modelled as `Except`-valued oracles carrying the raw
upstream error body on failure) — to the HTTP response they send.
JavaScript-specific value semantics (truthiness, `||` defaulting, the
`Number` coercion) are modelled explicitly.
-/

set_option linter.unusedVariables false

/-! ## JavaScript value model -/

/-- A JavaScript number: NaN, a signed infinity, or a finite value.
Finite values are idealized as exact rationals (no IEEE-754 rounding);
none of the verified properties depend on rounding. -/
inductive JSNum where
  | nan : JSNum
  | inf (neg : Bool) : JSNum
  | fin (q : ℚ) : JSNum
deriving DecidableEq, Repr

/-- JavaScript truthiness of a number: `NaN`, `0` and `-0` are falsy,
every other number (including the infinities) is truthy. -/
def JSNum.truthy : JSNum → Bool
  | .nan => false
  | .inf _ => true
  | .fin q => q != 0

/-- A JavaScript value as it can appear in a parsed JSON request body
(plus `undefined` for absent fields). -/
inductive JSValue where
  | undef : JSValue
  | null : JSValue
  | bool (b : Bool) : JSValue
  | num (n : JSNum) : JSValue
  | str (s : String) : JSValue
deriving DecidableEq, Repr

/-- The whitespace characters stripped by ECMAScript `ToNumber` (the common
ASCII ones; the exotic Unicode space characters do not occur in any input
considered here). -/
def isJsSpace (c : Char) : Bool :=
  c = ' ' || c = '\t' || c = '\n' || c = '\r' || c = '\x0b' || c = '\x0c'

def spanDigits (cs : List Char) : List Char × List Char :=
  (cs.takeWhile Char.isDigit, cs.dropWhile Char.isDigit)

def digitsToNat (ds : List Char) : Nat :=
  ds.foldl (fun a c => a * 10 + (c.toNat - 48)) 0

def hexDigitVal (c : Char) : Option Nat :=
  if c.isDigit then some (c.toNat - 48)
  else if 'a' ≤ c ∧ c ≤ 'f' then some (c.toNat - 87)
  else if 'A' ≤ c ∧ c ≤ 'F' then some (c.toNat - 55)
  else none

def octDigitVal (c : Char) : Option Nat :=
  if '0' ≤ c ∧ c ≤ '7' then some (c.toNat - 48) else none

def binDigitVal (c : Char) : Option Nat :=
  if c = '0' ∨ c = '1' then some (c.toNat - 48) else none

def parseRadixGo (b : Nat) (val : Char → Option Nat) : List Char → Nat → Option Nat
  | [], acc => some acc
  | c :: r, acc =>
    match val c with
    | none => none
    | some v => parseRadixGo b val r (acc * b + v)

/-- Parse a nonempty digit string in base `b`. -/
def parseRadix (b : Nat) (val : Char → Option Nat) : List Char → Option Nat
  | [] => none
  | ds => parseRadixGo b val ds 0

/-- The mantissa value of integer digits `ip` and fraction digits `fp`. -/
def mantissaVal (ip fp : List Char) : ℚ :=
  (digitsToNat ip : ℚ) + (digitsToNat fp : ℚ) / (10 : ℚ) ^ fp.length

/-- Parse the optional exponent part of a decimal literal; the whole rest of
the input must be consumed. -/
def withExp (m : ℚ) : List Char → Option ℚ
  | [] => some m
  | e :: r =>
    if e = 'e' ∨ e = 'E' then
      let sr : Bool × List Char :=
        match r with
        | '-' :: t => (true, t)
        | '+' :: t => (false, t)
        | t => (false, t)
      let ds := spanDigits sr.2
      if ds.1 = [] ∨ ds.2 ≠ [] then none
      else some (m * (10 : ℚ) ^ (if sr.1 then -(digitsToNat ds.1 : ℤ) else (digitsToNat ds.1 : ℤ)))
    else none

/-- Parse an unsigned ECMAScript decimal literal (`digits`, `digits.digits`,
`.digits`, each with an optional exponent). -/
def parseDecLit (cs : List Char) : Option ℚ :=
  let ir := spanDigits cs
  match hr : ir.2 with
  | '.' :: r =>
    let fr := spanDigits r
    if ir.1 = [] ∧ fr.1 = [] then none
    else withExp (mantissaVal ir.1 fr.1) fr.2
  | _ =>
    if ir.1 = [] then none
    else withExp (mantissaVal ir.1 []) ir.2

/-- Modelled from the ECMAScript `ToNumber` operation on strings — the
behaviour of the `Number` built-in applied to a string, as used in
`Number(age)` at src/index.js line 54.  Covers whitespace trimming, the empty
string, signs, `Infinity`, decimal literals with fraction and exponent, and
the `0x`/`0o`/`0b` radix literals; everything else is `NaN`.  Values are
exact rationals (no IEEE-754 rounding). -/
def jsStrToNumber (s : String) : JSNum :=
  let cs := ((s.toList.dropWhile isJsSpace).reverse.dropWhile isJsSpace).reverse
  match cs with
  | [] => .fin 0
  | '0' :: 'x' :: rest => ((parseRadix 16 hexDigitVal rest).map (fun n => JSNum.fin n)).getD .nan
  | '0' :: 'X' :: rest => ((parseRadix 16 hexDigitVal rest).map (fun n => JSNum.fin n)).getD .nan
  | '0' :: 'o' :: rest => ((parseRadix 8 octDigitVal rest).map (fun n => JSNum.fin n)).getD .nan
  | '0' :: 'O' :: rest => ((parseRadix 8 octDigitVal rest).map (fun n => JSNum.fin n)).getD .nan
  | '0' :: 'b' :: rest => ((parseRadix 2 binDigitVal rest).map (fun n => JSNum.fin n)).getD .nan
  | '0' :: 'B' :: rest => ((parseRadix 2 binDigitVal rest).map (fun n => JSNum.fin n)).getD .nan
  | _ =>
    let sb : Bool × List Char :=
      match cs with
      | '-' :: r => (true, r)
      | '+' :: r => (false, r)
      | r => (false, r)
    if sb.2 = ['I', 'n', 'f', 'i', 'n', 'i', 't', 'y'] then .inf sb.1
    else
      match parseDecLit sb.2 with
      | some q => .fin (if sb.1 then -q else q)
      | none => .nan

/-- ECMAScript `ToNumber` on a JavaScript value (`Number(x)`). -/
def jsToNumber : JSValue → JSNum
  | .undef => .nan
  | .null => .fin 0
  | .bool b => .fin (if b then 1 else 0)
  | .num n => n
  | .str s => jsStrToNumber s

/-! ## `||` defaulting and falsiness on possibly-absent strings

A field read through optional chaining is `Option String`; `none` stands for
`undefined`/`null`.  JavaScript `a || b` falls through to `b` when `a` is
absent **or** the empty string. -/

def strOr (a : Option String) (b : String) : String :=
  match a with
  | some s => if s = "" then b else s
  | none => b

def strOrElse (a b : Option String) : Option String :=
  match a with
  | some s => if s = "" then b else some s
  | none => b

/-- JS `x || null` on a possibly-absent string. -/
def strOrNull (a : Option String) : Option String := strOrElse a none

/-- JS falsiness (`!x`) of a possibly-absent string value. -/
def strFalsy (a : Option String) : Bool :=
  match a with
  | some s => s = ""
  | none => true

/-- String interpolation of a possibly-absent value: a JS template literal
renders `undefined` as the string "undefined". -/
def jsInterp (a : Option String) : String := a.getD "undefined"

/-- `String.prototype.trim` of ECMAScript: strip leading and trailing
whitespace (the common ASCII whitespace characters suffice here). -/
def jsTrim (s : String) : String :=
  ⟨((s.toList.dropWhile isJsSpace).reverse.dropWhile isJsSpace).reverse⟩

/-- An HTTP response: the status code set by the handler and the JSON body,
one body type per endpoint. -/
structure HttpResponse (β : Type) where
  status : Nat
  body : β
deriving DecidableEq, Repr

/-! ## Credential store and user records (src/index.js lines 19–125)

The Prisma `User` table is modelled as a list of records; `findUnique` is
lookup by the unique email key, `create` appends a record whose `id` is
generated by the store (modelled as the next index). -/

structure User where
  id : Nat
  firstName : String
  lastName : String
  email : String
  password : String
  gender : String
  userType : String
  fieldType : Option String
  age : Option JSNum
  condition : Option String
  allergies : Option String
deriving DecidableEq, Repr

structure Store where
  users : List User
deriving DecidableEq, Repr

def findUnique (s : Store) (email : String) : Option User :=
  s.users.find? (fun u => u.email == email)

/-- The parsed body of `POST /api/register` (src/index.js lines 21–32).
The string-typed fields are assumed well-typed by the caller; `age` is kept
as a raw JavaScript value because the handler coerces it with `Number`. -/
structure RegisterBody where
  firstName : String
  lastName : String
  email : String
  password : String
  gender : String
  userType : String
  fieldType : Option String
  age : JSValue
  condition : Option String
  allergies : Option String
deriving DecidableEq, Repr

inductive RegisterResp where
  | err (msg : String) : RegisterResp
  | registered (message : String) (user : User) : RegisterResp
deriving DecidableEq, Repr

def validUserTypes : List String := ["PATIENT", "RESEARCHER"]

def validGenders : List String := ["MALE", "FEMALE", "OTHER"]

/-- `POST /api/register` (src/index.js lines 19–65; identical logic at
src/unnamed/part_000 lines 47–79).  `hash` is the opaque `bcrypt.hash`
capability.  Returns the response sent and the store after the request. -/
def register (hash : String → String) (store : Store) (b : RegisterBody) :
    HttpResponse RegisterResp × Store :=
  match findUnique store b.email with
  | some _ => (⟨400, .err "Email already registered"⟩, store)
  | none =>
    if !(validUserTypes.contains b.userType) then (⟨400, .err "Invalid userType"⟩, store)
    else if !(validGenders.contains b.gender) then (⟨400, .err "Invalid gender"⟩, store)
    else
      let hashed := hash b.password
      let user : User :=
        { id := store.users.length
          firstName := b.firstName
          lastName := b.lastName
          email := b.email
          password := hashed
          gender := b.gender
          userType := b.userType
          fieldType := if b.userType == "RESEARCHER" then b.fieldType else none
          age :=
            if b.userType == "PATIENT" then
              let n := jsToNumber b.age
              if n.truthy then some n else none
            else none
          condition := if b.userType == "PATIENT" then b.condition else none
          allergies := if b.userType == "PATIENT" then b.allergies else none }
      (⟨201, .registered "Registered successfully" user⟩, ⟨store.users ++ [user]⟩)

/-! ## Login (src/index.js lines 68–98) -/

/-- The claims object passed to `jwt.sign` (src/index.js line 78). -/
structure TokenPayload where
  id : Nat
  email : String
  userType : String
deriving DecidableEq, Repr

/-- A signed token, modelled as the record of what was passed to the opaque
`jwt.sign` capability: the embedded claims, the signing secret and the
`expiresIn` option. -/
structure SignedToken where
  payload : TokenPayload
  secret : Option String
  expiresIn : String
deriving DecidableEq, Repr

/-- A JSON field value appearing in the login response's user object. -/
inductive FVal where
  | nat (n : Nat) : FVal
  | str (s : String) : FVal
deriving DecidableEq, Repr

inductive LoginResp where
  | err (msg : String) : LoginResp
  | ok (message : String) (token : SignedToken) (user : List (String × FVal)) : LoginResp
deriving DecidableEq, Repr

/-- `POST /api/login` (src/index.js lines 68–98).  `compare` is the opaque
`bcrypt.compare` capability; `secret` is `process.env.JWT_SECRET`.  The
success user projection is modelled as the association list of the object
literal at lines 86–92, in source order. -/
def login (compare : String → String → Bool) (secret : Option String) (store : Store)
    (email password : String) : HttpResponse LoginResp :=
  match findUnique store email with
  | none => ⟨404, .err "User not found"⟩
  | some user =>
    if !(compare password user.password) then ⟨400, .err "Invalid credentials"⟩
    else
      ⟨200, .ok "Login successful"
        ⟨⟨user.id, user.email, user.userType⟩, secret, "7d"⟩
        [("id", .nat user.id), ("email", .str user.email),
         ("userType", .str user.userType), ("firstName", .str user.firstName),
         ("lastName", .str user.lastName)]⟩

/-! ## Literature client: `GET /api/patient-data/pubmed`
(src/index.js lines 130–182; same logic at src/unnamed/part_000 lines
137–166).  The two upstream calls — the esearch id lookup and the esummary
batch fetch — are passed in as `Except`-valued outcomes; an `.error` carries
the raw upstream failure.  The handler result also records how many times
each upstream call was issued. -/

structure EsearchResult where
  idlist : Option (List String)
deriving DecidableEq, Repr

structure PubmedSearchData where
  esearchresult : Option EsearchResult
deriving DecidableEq, Repr

structure PubmedAuthor where
  name : Option String
deriving DecidableEq, Repr

structure PubmedDoc where
  uid : Option String
  title : Option String
  fulljournalname : Option String
  source : Option String
  pubdate : Option String
  authors : Option (List PubmedAuthor)
deriving DecidableEq, Repr

/-- The esummary `result` JSON object, modelled as an association list from
uid keys to documents.  (The real payload also carries a `"uids"` key whose
value is an array; the handler filters that key out before reading any
document field, so the typed model only needs document values.) -/
structure PubmedSummaryData where
  result : Option (List (String × PubmedDoc))
deriving DecidableEq, Repr

structure Paper where
  id : Option String
  title : Option String
  journal : Option String
  pubDate : Option String
  authors : Option String
  link : String
deriving DecidableEq, Repr

/-- The per-document mapping at src/index.js lines 165–175. -/
def fmtPaper (p : PubmedDoc) : Paper :=
  { id := p.uid
    title := p.title
    journal := strOrElse p.fulljournalname p.source
    pubDate := p.pubdate
    authors := p.authors.map (fun l => String.intercalate ", " (l.map (fun a => a.name.getD "")))
    link := "https://pubmed.ncbi.nlm.nih.gov/" ++ jsInterp p.uid ++ "/" }

inductive PubmedResp where
  | err (msg : String) : PubmedResp
  | results (ps : List Paper) : PubmedResp
deriving DecidableEq, Repr

structure PubmedOutcome where
  resp : HttpResponse PubmedResp
  searchCalls : Nat
  summaryCalls : Nat
deriving DecidableEq, Repr

def pubmedHandler (query : Option String)
    (search : Except String PubmedSearchData)
    (summary : Except String PubmedSummaryData) : PubmedOutcome :=
  if strFalsy query then ⟨⟨400, .err "Missing query parameter"⟩, 0, 0⟩
  else
    match search with
    | .error _ => ⟨⟨500, .err "PubMed fetch failed"⟩, 1, 0⟩
    | .ok sd =>
      let ids := (sd.esearchresult.bind (fun e => e.idlist)).getD []
      if ids.length = 0 then ⟨⟨200, .results []⟩, 1, 0⟩
      else
        match summary with
        | .error _ => ⟨⟨500, .err "PubMed fetch failed"⟩, 1, 1⟩
        | .ok su =>
          let all := su.result.getD []
          let papers := (all.filter (fun kv => kv.1 != "uids")).map (fun kv => fmtPaper kv.2)
          ⟨⟨200, .results papers⟩, 1, 1⟩

/-! ## Trials client: `GET /api/patient-data/trials` (src/index.js 187–232) -/

structure IdentificationModule where
  nctId : Option String
  briefTitle : Option String
  officialTitle : Option String
deriving DecidableEq, Repr

structure StatusModule where
  overallStatus : Option String
deriving DecidableEq, Repr

structure ConditionsModule where
  conditions : Option (List String)
deriving DecidableEq, Repr

structure TrialFacility where
  name : Option String
deriving DecidableEq, Repr

structure TrialLocation where
  facility : Option TrialFacility
deriving DecidableEq, Repr

structure ContactsLocationsModule where
  locations : Option (List TrialLocation)
deriving DecidableEq, Repr

structure ProtocolSection where
  identificationModule : Option IdentificationModule
  statusModule : Option StatusModule
  conditionsModule : Option ConditionsModule
  contactsLocationsModule : Option ContactsLocationsModule
deriving DecidableEq, Repr

structure Study where
  protocolSection : Option ProtocolSection
deriving DecidableEq, Repr

structure TrialsData where
  studies : Option (List Study)
deriving DecidableEq, Repr

structure Trial where
  id : Option String
  title : String
  status : String
  condition : String
  location : String
  url : String
deriving DecidableEq, Repr

/-- The per-study mapping at src/index.js lines 198–225. -/
def fmtTrial (s : Study) : Trial :=
  let idm := s.protocolSection.bind (fun ps => ps.identificationModule)
  let id := idm.bind (fun m => m.nctId)
  { id := id
    title := strOr (strOrElse (idm.bind (fun m => m.briefTitle))
      (idm.bind (fun m => m.officialTitle))) "Untitled Trial"
    status := strOr ((s.protocolSection.bind (fun ps => ps.statusModule)).bind
      (fun m => m.overallStatus)) "Status Unknown"
    condition := strOr (((s.protocolSection.bind (fun ps => ps.conditionsModule)).bind
      (fun m => m.conditions)).map (fun cs => String.intercalate ", " cs))
      "Condition not specified"
    location := strOr (((s.protocolSection.bind (fun ps => ps.contactsLocationsModule)).bind
      (fun m => m.locations)).map
        (fun ls => String.intercalate ", " (ls.map (fun loc => (loc.facility.bind (fun f => f.name)).getD ""))))
      "No locations listed"
    url := "https://clinicaltrials.gov/study/" ++ jsInterp id }

inductive TrialsResp where
  | err (msg : String) : TrialsResp
  | results (ts : List Trial) : TrialsResp
deriving DecidableEq, Repr

def trialsHandler (condition : Option String) (call : Except String TrialsData) :
    HttpResponse TrialsResp :=
  let cond := strOr condition "cancer"
  match call with
  | .error _ => ⟨500, .err "Failed to fetch Clinical Trials"⟩
  | .ok d => ⟨200, .results ((d.studies.getD []).map fmtTrial)⟩

/-! ## Identity registry client: `GET /api/patient-data/orcid`
(src/index.js lines 237–290).  One search call, then up to 5 sequential
detail calls over `results.slice(0, 5)`, skipping candidates without an
identifier; the detail oracle `fetch` maps an ORCID id to the outcome of
its profile call. -/

structure OrcidIdentifier where
  path : Option String
deriving DecidableEq, Repr

/-- One element of the search response's `result` array; `orcidIdentifier`
models the `"orcid-identifier"` key. -/
structure OrcidSearchItem where
  orcidIdentifier : Option OrcidIdentifier
deriving DecidableEq, Repr

structure OrcidSearchData where
  result : Option (List OrcidSearchItem)
deriving DecidableEq, Repr

structure NameField where
  value : Option String
deriving DecidableEq, Repr

/-- `givenNames` models the `"given-names"` key, `familyName` the
`"family-name"` key. -/
structure PersonName where
  givenNames : Option NameField
  familyName : Option NameField
deriving DecidableEq, Repr

structure OrcidBiography where
  content : Option String
deriving DecidableEq, Repr

structure OrcidPerson where
  name : Option PersonName
  biography : Option OrcidBiography
deriving DecidableEq, Repr

structure TitleValue where
  value : Option String
deriving DecidableEq, Repr

structure WorkTitle where
  title : Option TitleValue
deriving DecidableEq, Repr

structure PubYear where
  value : Option String
deriving DecidableEq, Repr

/-- `year` under the `"publication-date"` key. -/
structure WorkPubDate where
  year : Option PubYear
deriving DecidableEq, Repr

structure WorkSummary where
  title : Option WorkTitle
  publicationDate : Option WorkPubDate
deriving DecidableEq, Repr

/-- `workSummary` models the `"work-summary"` array key. -/
structure WorkGroup where
  workSummary : Option (List WorkSummary)
deriving DecidableEq, Repr

structure WorksSection where
  group : Option (List WorkGroup)
deriving DecidableEq, Repr

structure ActivitiesSummary where
  works : Option WorksSection
deriving DecidableEq, Repr

/-- A profile detail response; `activitiesSummary` models the
`activities_summary` key exactly as the source reads it (line 270). -/
structure OrcidProfile where
  person : Option OrcidPerson
  activitiesSummary : Option ActivitiesSummary
deriving DecidableEq, Repr

structure OrcidWork where
  title : Option String
  year : Option String
deriving DecidableEq, Repr

structure OrcidRec where
  id : String
  name : String
  biography : String
  works : List OrcidWork
  link : String
deriving DecidableEq, Repr

/-- The per-work mapping at src/index.js lines 270–274. -/
def mkOrcidWork (w : WorkSummary) : OrcidWork :=
  { title := ((w.title).bind (fun t => t.title)).bind (fun t => t.value)
    year := ((w.publicationDate).bind (fun d => d.year)).bind (fun y => y.value) }

/-- One detail record (src/index.js lines 267–282). -/
def mkOrcidRec (id : String) (p : OrcidProfile) : OrcidRec :=
  let given := strOr (((p.person.bind (fun x => x.name)).bind
    (fun n => n.givenNames)).bind (fun f => f.value)) ""
  let family := strOr (((p.person.bind (fun x => x.name)).bind
    (fun n => n.familyName)).bind (fun f => f.value)) ""
  let bio := strOr ((p.person.bind (fun x => x.biography)).bind (fun b => b.content)) ""
  let works := ((p.activitiesSummary.bind (fun a => a.works)).bind (fun w => w.group)).map
    (fun g => (g.take 3).map (fun w => mkOrcidWork ((w.workSummary.bind (fun l => l.get? 0)).getD ⟨none, none⟩)))
  { id := id
    name := jsTrim (given ++ " " ++ family)
    biography := bio
    works := works.getD []
    link := "https://orcid.org/" ++ id }

/-- The `for (const r of results.slice(0, 5))` loop body (lines 258–283):
skips candidates with a falsy identifier without a call, aborts on the first
failing detail call.  Returns the number of detail calls issued and either
the raw upstream error or the accumulated records. -/
def orcidLoop (fetch : String → Except String OrcidProfile) :
    List OrcidSearchItem → Nat × Except String (List OrcidRec)
  | [] => (0, .ok [])
  | r :: rs =>
    match strOrNull (r.orcidIdentifier.bind (fun o => o.path)) with
    | none => orcidLoop fetch rs
    | some id =>
      match fetch id with
      | .error e => (1, .error e)
      | .ok profile =>
        let rest := orcidLoop fetch rs
        (rest.1 + 1,
          match rest.2 with
          | .error e => .error e
          | .ok recs => .ok (mkOrcidRec id profile :: recs))

inductive OrcidResp where
  | err (msg : String) : OrcidResp
  | result (rs : List OrcidRec) : OrcidResp
deriving DecidableEq, Repr

structure OrcidOutcome where
  resp : HttpResponse OrcidResp
  searchCalls : Nat
  detailCalls : Nat
deriving DecidableEq, Repr

def orcidHandler (name : Option String) (search : Except String OrcidSearchData)
    (fetch : String → Except String OrcidProfile) : OrcidOutcome :=
  if strFalsy name then ⟨⟨400, .err "Missing name"⟩, 0, 0⟩
  else
    match search with
    | .error _ => ⟨⟨500, .err "ORCID fetch failed"⟩, 1, 0⟩
    | .ok sd =>
      let results := sd.result.getD []
      if results.length = 0 then ⟨⟨200, .result []⟩, 1, 0⟩
      else
        let loop := orcidLoop fetch (results.take 5)
        match loop.2 with
        | .error _ => ⟨⟨500, .err "ORCID fetch failed"⟩, 1, loop.1⟩
        | .ok detailed => ⟨⟨200, .result detailed⟩, 1, loop.1⟩

/-! ## Scholarly search client: `GET /api/patient-data/scholar`
(src/index.js lines 294–310).  The organic results are passed through
unmodified, as a bare array; their element type is left abstract. -/

structure ScholarData (α : Type) where
  organicResults : Option (List α)
deriving DecidableEq, Repr

inductive ScholarResp (α : Type) where
  | err (msg : String) : ScholarResp α
  | results (xs : List α) : ScholarResp α
deriving DecidableEq, Repr

def scholarHandler {α : Type} (topic : Option String)
    (call : Except String (ScholarData α)) : HttpResponse (ScholarResp α) :=
  if strFalsy topic then ⟨400, .err "Missing topic"⟩
  else
    match call with
    | .error _ => ⟨500, .err "Scholar fetch failed"⟩
    | .ok d => ⟨200, .results (d.organicResults.getD [])⟩

/-! ## Site-scoped search client: `GET /api/patient-data/researchgate`
(src/index.js lines 313–335). -/

structure RGItem where
  title : Option String
  link : Option String
  snippet : Option String
deriving DecidableEq, Repr

structure RGData where
  organicResults : Option (List RGItem)
deriving DecidableEq, Repr

inductive RGResp where
  | err (msg : String) : RGResp
  | results (xs : List RGItem) : RGResp
deriving DecidableEq, Repr

/-- Note the catch block at lines 331–334: on upstream failure this handler
responds `res.json({ results: [] })` — status 200 with an empty success
envelope, unlike every other aggregator handler. -/
def researchgateHandler (topic : Option String) (call : Except String RGData) :
    HttpResponse RGResp :=
  if strFalsy topic then ⟨400, .err "Missing topic"⟩
  else
    match call with
    | .error _ => ⟨200, .results []⟩
    | .ok d =>
      ⟨200, .results ((d.organicResults.map
        (fun l => l.map (fun r => ⟨r.title, r.link, r.snippet⟩))).getD [])⟩

/-! ## Europe PMC papers client: `GET /api/research-data/papers`
(src/index.js lines 340–362) -/

structure FullTextUrl where
  url : Option String
deriving DecidableEq, Repr

structure FullTextUrlList where
  fullTextUrl : Option (List FullTextUrl)
deriving DecidableEq, Repr

structure EpmcPaper where
  title : Option String
  authorString : Option String
  fullTextUrlList : Option FullTextUrlList
  source : Option String
  id : Option String
deriving DecidableEq, Repr

structure EpmcResultList where
  result : Option (List EpmcPaper)
deriving DecidableEq, Repr

structure PapersData where
  resultList : Option EpmcResultList
deriving DecidableEq, Repr

structure PaperOut where
  title : Option String
  authors : String
  link : String
deriving DecidableEq, Repr

/-- The per-paper mapping at src/index.js lines 351–355. -/
def fmtEpmc (p : EpmcPaper) : PaperOut :=
  { title := p.title
    authors := strOr p.authorString "Unknown authors"
    link := strOr (((p.fullTextUrlList.bind (fun l => l.fullTextUrl)).bind
      (fun l => l.get? 0)).bind (fun u => u.url))
      ("https://europepmc.org/article/" ++ jsInterp p.source ++ "/" ++ jsInterp p.id) }

inductive PapersResp where
  | err (msg : String) : PapersResp
  | results (ps : List PaperOut) : PapersResp
deriving DecidableEq, Repr

def papersHandler (topic : Option String) (call : Except String PapersData) :
    HttpResponse PapersResp :=
  let t := strOr topic "oncology"
  match call with
  | .error _ => ⟨500, .err "Failed to fetch papers"⟩
  | .ok d => ⟨200, .results (((d.resultList.bind (fun r => r.result)).getD []).map fmtEpmc)⟩

/-! ## Collaborations client: `GET /api/research-data/collaborations`
(src/index.js lines 365–385) -/

structure SemScholarAuthor where
  name : Option String
  affiliations : Option (List String)
  authorId : Option String
deriving DecidableEq, Repr

structure CollabData where
  data : Option (List SemScholarAuthor)
deriving DecidableEq, Repr

structure CollabOut where
  name : Option String
  institution : String
  id : Option String
deriving DecidableEq, Repr

/-- The per-author mapping at src/index.js lines 374–378. -/
def fmtCollab (c : SemScholarAuthor) : CollabOut :=
  { name := c.name
    institution := strOr (c.affiliations.bind (fun l => l.get? 0)) "Unknown"
    id := c.authorId }

inductive CollabResp where
  | err (msg : String) : CollabResp
  | results (cs : List CollabOut) : CollabResp
deriving DecidableEq, Repr

def collaborationsHandler (query : Option String) (call : Except String CollabData) :
    HttpResponse CollabResp :=
  let q := strOr query "AI research"
  match call with
  | .error _ => ⟨500, .err "Failed to fetch collaborations"⟩
  | .ok d => ⟨200, .results ((d.data.getD []).map fmtCollab)⟩

/-! ## Grants client: `GET /api/research-data/grants`
(src/index.js lines 389–430) -/

structure GrantOrg where
  orgName : Option String
deriving DecidableEq, Repr

structure GrantPI where
  piName : Option String
deriving DecidableEq, Repr

structure GrantRec where
  projectNum : Option String
  projectTitle : Option String
  agency : Option String
  awardAmount : Option JSNum
  organization : Option GrantOrg
  principalInvestigators : Option (List GrantPI)
deriving DecidableEq, Repr

structure GrantsData where
  results : Option (List GrantRec)
deriving DecidableEq, Repr

/-- The `amount` field: `formatted n` stands for the locale-formatted string
`` `$${Number(n).toLocaleString()}` `` — the locale rendering is abstracted
to the number it formats. -/
inductive GrantAmount where
  | formatted (n : JSNum) : GrantAmount
  | notDisclosed : GrantAmount
deriving DecidableEq, Repr

structure GrantOut where
  id : String
  title : String
  agency : String
  organization : String
  pi : String
  amount : GrantAmount
  url : String
deriving DecidableEq, Repr

def mapIdxGo {α β : Type} (f : Nat → α → β) : Nat → List α → List β
  | _, [] => []
  | i, a :: as => f i a :: mapIdxGo f (i + 1) as

/-- `Array.prototype.map` with the index argument. -/
def jsMapIdx {α β : Type} (f : Nat → α → β) (l : List α) : List β := mapIdxGo f 0 l

/-- The per-grant mapping at src/index.js lines 411–423. -/
def fmtGrant (query : String) (index : Nat) (g : GrantRec) : GrantOut :=
  { id := strOr g.projectNum ("grant-" ++ toString index)
    title := strOr (g.projectTitle.map (fun t => jsTrim t)) (query ++ " Research Grant")
    agency := strOr g.agency "NIH"
    organization := strOr (g.organization.bind (fun o => o.orgName)) "Unknown Organization"
    pi := strOr ((g.principalInvestigators.bind (fun l => l.get? 0)).bind (fun p => p.piName))
      "Unknown PI"
    amount :=
      match g.awardAmount with
      | some n => if n.truthy then .formatted n else .notDisclosed
      | none => .notDisclosed
    url :=
      match strOrNull g.projectNum with
      | some pn => "https://reporter.nih.gov/project-details/" ++ pn
      | none => "#" }

inductive GrantsResp where
  | err (msg : String) : GrantsResp
  | results (gs : List GrantOut) : GrantsResp
deriving DecidableEq, Repr

def grantsHandler (query : Option String) (call : Except String GrantsData) :
    HttpResponse GrantsResp :=
  let q := strOr query "cancer"
  match call with
  | .error _ => ⟨500, .err "Failed to fetch grants data"⟩
  | .ok d => ⟨200, .results ((d.results.map (jsMapIdx (fmtGrant q))).getD [])⟩

/-! ## Summarization gateway: `POST /api/ai-summary`
(src/index.js lines 437–471 and the deployed variant src/unnamed/part_000
lines 171–191).  `call1` is the outcome of the handler's completion call;
`call2` is the outcome of the extra completion call that the catch block of
the src/index.js version issues. -/

structure AiMessage where
  content : Option String
deriving DecidableEq, Repr

structure AiChoice where
  message : Option AiMessage
deriving DecidableEq, Repr

structure AiCompletion where
  choices : Option (List AiChoice)
deriving DecidableEq, Repr

inductive AiResp where
  | err (msg : String) : AiResp
  | summary (s : String) : AiResp
deriving DecidableEq, Repr

/-- The outcome of one request: the response sent, if any (`none` means the
handler never responded), and the number of completion calls issued. -/
structure AiOutcome where
  resp : Option (HttpResponse AiResp)
  completionCalls : Nat
deriving DecidableEq, Repr

/-- `POST /api/ai-summary` as written in src/index.js lines 437–471.  The
catch block (lines 463–470) issues a second completion call and logs its
result; it sends no HTTP response. -/
def aiSummaryHandler (symptoms : Option String) (apiKey : Option String)
    (call1 call2 : Except String AiCompletion) : AiOutcome :=
  if strFalsy (symptoms.map (fun s => jsTrim s)) then ⟨some ⟨400, .err "Symptoms required"⟩, 0⟩
  else if strFalsy apiKey then ⟨some ⟨500, .err "OpenAI API key not set"⟩, 0⟩
  else
    match call1 with
    | .error _ => ⟨none, 2⟩
    | .ok r =>
      let summary := strOrNull (((r.choices.bind (fun l => l.get? 0)).bind
        (fun c => c.message)).bind (fun m => m.content))
      match summary with
      | none => ⟨some ⟨500, .err "OpenAI did not return a summary"⟩, 1⟩
      | some s => ⟨some ⟨200, .summary s⟩, 1⟩

/-- `POST /api/ai-summary` as deployed (src/unnamed/part_000 lines 171–191):
no API-key check, an empty completion is replaced by the fixed text
"No summary generated" in a 200 response, and a throwing call is answered
with a single 500. -/
def aiSummaryDeployed (symptoms : Option String) (call : Except String AiCompletion) :
    HttpResponse AiResp :=
  if strFalsy (symptoms.map (fun s => jsTrim s)) then ⟨400, .err "Symptoms required"⟩
  else
    match call with
    | .error _ => ⟨500, .err "OpenAI API call failed"⟩
    | .ok r =>
      ⟨200, .summary (strOr (((r.choices.bind (fun l => l.get? 0)).bind
        (fun c => c.message)).bind (fun m => m.content)) "No summary generated")⟩

/-! ## Theorems -/

/-- Inversion of a successful registration: the created record's fields in
terms of the request body. -/
theorem register_ok_inv (hash : String → String) (store : Store) (b : RegisterBody)
    (m : String) (u : User)
    (h : (register hash store b).1 = ⟨201, RegisterResp.registered m u⟩) :
    u.userType = b.userType ∧
    u.fieldType = (if b.userType == "RESEARCHER" then b.fieldType else none) ∧
    u.age = (if b.userType == "PATIENT" then
        (if (jsToNumber b.age).truthy then some (jsToNumber b.age) else none) else none) ∧
    u.condition = (if b.userType == "PATIENT" then b.condition else none) ∧
    u.allergies = (if b.userType == "PATIENT" then b.allergies else none) := by
  cases hf : findUnique store b.email with
  | some w => simp [register, hf] at h
  | none =>
    by_cases ht : b.userType ∈ validUserTypes
    · by_cases hg : b.gender ∈ validGenders
      · simp [register, hf, ht, hg] at h
        rcases h with ⟨hm, hu⟩
        subst hu
        simp
      · simp [register, hf, ht, hg] at h
    · simp [register, hf, ht] at h

/-- C3: for every valid registration input, the created record has
`fieldType = null` when `userType` is PATIENT and `age`, `condition`,
`allergies` all null when `userType` is RESEARCHER — the patient-only and
researcher-only fields are mutually exclusive and determined by `userType`. -/
theorem register_patient_researcher_exclusive (hash : String → String) (store : Store)
    (b : RegisterBody) (m : String) (u : User)
    (h : (register hash store b).1 = ⟨201, RegisterResp.registered m u⟩) :
    (u.userType = "PATIENT" → u.fieldType = none) ∧
    (u.userType = "RESEARCHER" → u.age = none ∧ u.condition = none ∧ u.allergies = none) := by
  obtain ⟨hty, hf, ha, hc, hal⟩ := register_ok_inv hash store b m u h
  constructor
  · intro hp
    rw [hty] at hp
    rw [hf, hp]
    simp
  · intro hr
    rw [hty] at hr
    rw [ha, hc, hal, hr]
    simp

theorem register_patient_researcher_exclusive_witness :
    ((⟨0, "Ann", "Lee", "ann@x.io", "pw", "FEMALE", "PATIENT", none, some (JSNum.fin 30), some "asthma", some "nuts"⟩ : User).userType = "PATIENT" →
      (⟨0, "Ann", "Lee", "ann@x.io", "pw", "FEMALE", "PATIENT", none, some (JSNum.fin 30), some "asthma", some "nuts"⟩ : User).fieldType = none) ∧
    ((⟨0, "Ann", "Lee", "ann@x.io", "pw", "FEMALE", "PATIENT", none, some (JSNum.fin 30), some "asthma", some "nuts"⟩ : User).userType = "RESEARCHER" →
      (⟨0, "Ann", "Lee", "ann@x.io", "pw", "FEMALE", "PATIENT", none, some (JSNum.fin 30), some "asthma", some "nuts"⟩ : User).age = none ∧
      (⟨0, "Ann", "Lee", "ann@x.io", "pw", "FEMALE", "PATIENT", none, some (JSNum.fin 30), some "asthma", some "nuts"⟩ : User).condition = none ∧
      (⟨0, "Ann", "Lee", "ann@x.io", "pw", "FEMALE", "PATIENT", none, some (JSNum.fin 30), some "asthma", some "nuts"⟩ : User).allergies = none) :=
  register_patient_researcher_exclusive (fun s => s) ⟨[]⟩
    ⟨"Ann", "Lee", "ann@x.io", "pw", "FEMALE", "PATIENT", some "Oncology", JSValue.num (JSNum.fin 30), some "asthma", some "nuts"⟩
    "Registered successfully"
    ⟨0, "Ann", "Lee", "ann@x.io", "pw", "FEMALE", "PATIENT", none, some (JSNum.fin 30), some "asthma", some "nuts"⟩
    (by decide)

/-- C4: a successful login responds 200 with a token whose signing input
embeds exactly the claims {id, email, userType} of the authenticated user
and the `expiresIn: "7d"` option, and a user projection whose keys are
exactly id, email, userType, firstName, lastName — in particular the
password digest is not among them. -/
theorem login_success_token_and_projection (compare : String → String → Bool)
    (secret : Option String) (store : Store) (email password : String) (u : User)
    (hu : findUnique store email = some u)
    (hv : compare password u.password = true) :
    login compare secret store email password =
      ⟨200, LoginResp.ok "Login successful"
        ⟨⟨u.id, u.email, u.userType⟩, secret, "7d"⟩
        [("id", FVal.nat u.id), ("email", FVal.str u.email),
         ("userType", FVal.str u.userType), ("firstName", FVal.str u.firstName),
         ("lastName", FVal.str u.lastName)]⟩ ∧
    ([("id", FVal.nat u.id), ("email", FVal.str u.email),
      ("userType", FVal.str u.userType), ("firstName", FVal.str u.firstName),
      ("lastName", FVal.str u.lastName)].map Prod.fst =
        ["id", "email", "userType", "firstName", "lastName"]) ∧
    "password" ∉ ([("id", FVal.nat u.id), ("email", FVal.str u.email),
      ("userType", FVal.str u.userType), ("firstName", FVal.str u.firstName),
      ("lastName", FVal.str u.lastName)].map Prod.fst) := by
  refine ⟨?_, by simp, by simp⟩
  simp [login, hu, hv]

theorem login_success_token_and_projection_witness :
    (login (fun _ _ => true) (some "s3cret")
        ⟨[⟨7, "Ann", "Lee", "ann@x.io", "digest", "FEMALE", "PATIENT", none, none, none, none⟩]⟩
        "ann@x.io" "pw" =
      ⟨200, LoginResp.ok "Login successful"
        ⟨⟨7, "ann@x.io", "PATIENT"⟩, some "s3cret", "7d"⟩
        [("id", FVal.nat 7), ("email", FVal.str "ann@x.io"),
         ("userType", FVal.str "PATIENT"), ("firstName", FVal.str "Ann"),
         ("lastName", FVal.str "Lee")]⟩) ∧
    ([("id", FVal.nat 7), ("email", FVal.str "ann@x.io"),
      ("userType", FVal.str "PATIENT"), ("firstName", FVal.str "Ann"),
      ("lastName", FVal.str "Lee")].map Prod.fst =
        ["id", "email", "userType", "firstName", "lastName"]) ∧
    "password" ∉ ([("id", FVal.nat 7), ("email", FVal.str "ann@x.io"),
      ("userType", FVal.str "PATIENT"), ("firstName", FVal.str "Ann"),
      ("lastName", FVal.str "Lee")].map Prod.fst) :=
  login_success_token_and_projection (fun _ _ => true) (some "s3cret")
    ⟨[⟨7, "Ann", "Lee", "ann@x.io", "digest", "FEMALE", "PATIENT", none, none, none, none⟩]⟩
    "ann@x.io" "pw"
    ⟨7, "Ann", "Lee", "ann@x.io", "digest", "FEMALE", "PATIENT", none, none, none, none⟩
    (by decide) rfl

/-- C5: a login for an unknown email answers 404 "User not found"; a login
for a known email whose digest comparison fails answers 400
"Invalid credentials"; the two responses are distinct. -/
theorem login_distinct_failures (compare : String → String → Bool) (secret : Option String)
    (store : Store) (email password : String) :
    (findUnique store email = none →
      login compare secret store email password = ⟨404, LoginResp.err "User not found"⟩) ∧
    (∀ u, findUnique store email = some u → compare password u.password = false →
      login compare secret store email password = ⟨400, LoginResp.err "Invalid credentials"⟩) ∧
    (HttpResponse.mk 404 (LoginResp.err "User not found") ≠
      HttpResponse.mk 400 (LoginResp.err "Invalid credentials")) := by
  refine ⟨?_, ?_, by decide⟩
  · intro h
    simp [login, h]
  · intro u hu hv
    simp [login, hu, hv]

theorem login_distinct_failures_witness :
    login (fun _ _ => false) none ⟨[]⟩ "no@x.io" "pw" =
      ⟨404, LoginResp.err "User not found"⟩ ∧
    login (fun _ _ => false) none
        ⟨[⟨7, "Ann", "Lee", "ann@x.io", "digest", "FEMALE", "PATIENT", none, none, none, none⟩]⟩
        "ann@x.io" "wrong" =
      ⟨400, LoginResp.err "Invalid credentials"⟩ :=
  ⟨(login_distinct_failures (fun _ _ => false) none ⟨[]⟩ "no@x.io" "pw").1 rfl,
   (login_distinct_failures (fun _ _ => false) none
      ⟨[⟨7, "Ann", "Lee", "ann@x.io", "digest", "FEMALE", "PATIENT", none, none, none, none⟩]⟩
      "ann@x.io" "wrong").2.1
     ⟨7, "Ann", "Lee", "ann@x.io", "digest", "FEMALE", "PATIENT", none, none, none, none⟩
     (by decide) rfl⟩

/-- C6 counterexample: with the email already registered, a registration
with userType "DOCTOR" fails with the ConflictError "Email already
registered" — not the ValidationError "Invalid userType" the claim names. -/
theorem register_doctor_conflict_counterexample :
    (register (fun s => s)
        ⟨[⟨0, "E", "F", "dup@x.io", "h", "MALE", "PATIENT", none, none, none, none⟩]⟩
        ⟨"C", "D", "dup@x.io", "pw", "MALE", "DOCTOR", none, JSValue.undef, none, none⟩).1 =
      ⟨400, RegisterResp.err "Email already registered"⟩ ∧
    RegisterResp.err "Email already registered" ≠ RegisterResp.err "Invalid userType" := by
  decide

/-- C6 amended: a registration whose userType is outside {PATIENT,
RESEARCHER} fails with the ValidationError "Invalid userType" whenever the
email is not already registered (a duplicate email is answered first, with
"Email already registered"); in every case no store write occurs. -/
theorem register_invalid_usertype (hash : String → String) (store : Store) (b : RegisterBody)
    (hType : b.userType ∉ validUserTypes) :
    (findUnique store b.email = none →
      (register hash store b).1 = ⟨400, RegisterResp.err "Invalid userType"⟩) ∧
    (register hash store b).2 = store := by
  cases hf : findUnique store b.email with
  | some w => simp [register, hf]
  | none => simp [register, hf, hType]

theorem register_invalid_usertype_witness :
    ((register (fun s => s) ⟨[]⟩
        ⟨"C", "D", "c@x.io", "pw", "MALE", "DOCTOR", none, JSValue.undef, none, none⟩).1 =
      ⟨400, RegisterResp.err "Invalid userType"⟩) ∧
    ((register (fun s => s) ⟨[]⟩
        ⟨"C", "D", "c@x.io", "pw", "MALE", "DOCTOR", none, JSValue.undef, none, none⟩).2 =
      (⟨[]⟩ : Store)) :=
  ⟨(register_invalid_usertype (fun s => s) ⟨[]⟩
      ⟨"C", "D", "c@x.io", "pw", "MALE", "DOCTOR", none, JSValue.undef, none, none⟩
      (by decide)).1 rfl,
   (register_invalid_usertype (fun s => s) ⟨[]⟩
      ⟨"C", "D", "c@x.io", "pw", "MALE", "DOCTOR", none, JSValue.undef, none, none⟩
      (by decide)).2⟩

/-- The coercion condition exactly as the C10 claim words it: "Number(age)
yields a nonzero finite number". -/
def specFiniteNonzero : JSNum → Bool
  | .fin q => q != 0
  | _ => false

/-- C10 counterexample: registering a PATIENT with age "Infinity" stores
`Infinity` — the coercion result is truthy but not finite, so the claim
demands null while the code stores the infinity. -/
theorem register_age_infinity_counterexample :
    jsToNumber (JSValue.str "Infinity") = JSNum.inf false ∧
    specFiniteNonzero (JSNum.inf false) = false ∧
    (register (fun s => s) ⟨[]⟩
        ⟨"Bo", "Xu", "bo@x.io", "pw", "OTHER", "PATIENT", none, JSValue.str "Infinity", none, none⟩).1 =
      ⟨201, RegisterResp.registered "Registered successfully"
        ⟨0, "Bo", "Xu", "bo@x.io", "pw", "OTHER", "PATIENT", none, some (JSNum.inf false), none, none⟩⟩ := by
  decide

/-- C10 amended: for every registration stored with userType PATIENT, the
stored age is `Number(age)` when the coercion result is truthy (nonzero and
not NaN — which includes the infinities), and null otherwise; in particular
an age of 0, a non-numeric age string and an absent age field all store
null. -/
theorem register_age_truthy (hash : String → String) (store : Store) (b : RegisterBody)
    (m : String) (u : User)
    (hPat : b.userType = "PATIENT")
    (h : (register hash store b).1 = ⟨201, RegisterResp.registered m u⟩) :
    u.age = (if (jsToNumber b.age).truthy then some (jsToNumber b.age) else none) ∧
    (jsToNumber (JSValue.num (JSNum.fin 0))).truthy = false ∧
    (jsToNumber JSValue.undef).truthy = false ∧
    (jsToNumber (JSValue.str "twenty")).truthy = false := by
  obtain ⟨hty, hf, ha, hc, hal⟩ := register_ok_inv hash store b m u h
  refine ⟨?_, by decide, by decide, by decide⟩
  rw [ha, hPat]
  simp

theorem register_age_truthy_witness :
    ((⟨0, "Cyn", "Odu", "cyn@x.io", "pw", "FEMALE", "PATIENT", none, some (JSNum.fin 33), none, none⟩ : User).age =
      (if (jsToNumber (JSValue.num (JSNum.fin 33))).truthy then
        some (jsToNumber (JSValue.num (JSNum.fin 33))) else none)) ∧
    (jsToNumber (JSValue.num (JSNum.fin 0))).truthy = false ∧
    (jsToNumber JSValue.undef).truthy = false ∧
    (jsToNumber (JSValue.str "twenty")).truthy = false :=
  register_age_truthy (fun s => s) ⟨[]⟩
    ⟨"Cyn", "Odu", "cyn@x.io", "pw", "FEMALE", "PATIENT", none, JSValue.num (JSNum.fin 33), none, none⟩
    "Registered successfully"
    ⟨0, "Cyn", "Odu", "cyn@x.io", "pw", "FEMALE", "PATIENT", none, some (JSNum.fin 33), none, none⟩
    rfl (by decide)

theorem strOr_of_falsy (a : Option String) (b : String) (h : strFalsy a = true) :
    strOr a b = b := by
  cases a with
  | none => rfl
  | some s =>
    simp [strFalsy] at h
    simp [strOr, h]

theorem strOrNull_of_falsy (a : Option String) (h : strFalsy a = true) :
    strOrNull a = none := by
  cases a with
  | none => rfl
  | some s =>
    simp [strFalsy] at h
    simp [strOrNull, strOrElse, h]

/-- The detail loop issues at most one call per candidate. -/
theorem orcidLoop_calls_le (fetch : String → Except String OrcidProfile) :
    ∀ l : List OrcidSearchItem, (orcidLoop fetch l).1 ≤ l.length := by
  intro l
  induction l with
  | nil => simp [orcidLoop]
  | cons r rs ih =>
    unfold orcidLoop
    cases hid : strOrNull (r.orcidIdentifier.bind (fun o => o.path)) with
    | none =>
      simp only [hid]
      exact Nat.le_succ_of_le ih
    | some id =>
      simp only [hid]
      cases hf : fetch id with
      | error e =>
        simp only [hf]
        exact Nat.succ_le_succ (Nat.zero_le _)
      | ok p =>
        simp only [hf]
        exact Nat.succ_le_succ ih

/-- The detail loop contributes at most one record per candidate. -/
theorem orcidLoop_recs_le (fetch : String → Except String OrcidProfile) :
    ∀ (l : List OrcidSearchItem) (recs : List OrcidRec),
      (orcidLoop fetch l).2 = .ok recs → recs.length ≤ l.length := by
  intro l
  induction l with
  | nil =>
    intro recs h
    simp [orcidLoop] at h
    simp [← h]
  | cons r rs ih =>
    intro recs h
    unfold orcidLoop at h
    cases hid : strOrNull (r.orcidIdentifier.bind (fun o => o.path)) with
    | none =>
      simp only [hid] at h
      exact Nat.le_succ_of_le (ih recs h)
    | some id =>
      simp only [hid] at h
      cases hf : fetch id with
      | error e =>
        simp only [hf] at h
        exact Except.noConfusion h
      | ok p =>
        simp only [hf] at h
        cases hrest : (orcidLoop fetch rs).2 with
        | error e =>
          simp only [hrest] at h
          exact Except.noConfusion h
        | ok recs₂ =>
          simp only [hrest, Except.ok.injEq] at h
          rw [← h]
          simpa using Nat.succ_le_succ (ih recs₂ hrest)

/-- C7: the ORCID endpoint issues at most 5 detail lookups regardless of the
number of candidates the search returns, and a 200 response carries at most
5 researcher-profile records. -/
theorem orcid_detail_cap (name : Option String) (search : Except String OrcidSearchData)
    (fetch : String → Except String OrcidProfile) :
    (orcidHandler name search fetch).detailCalls ≤ 5 ∧
    (∀ rs, (orcidHandler name search fetch).resp = ⟨200, OrcidResp.result rs⟩ →
      rs.length ≤ 5) := by
  have hcalls : ∀ sd : OrcidSearchData,
      (orcidLoop fetch ((sd.result.getD []).take 5)).1 ≤ 5 :=
    fun sd => (orcidLoop_calls_le fetch _).trans (List.length_take_le 5 _)
  have hrecs : ∀ (sd : OrcidSearchData) (rs : List OrcidRec),
      (orcidLoop fetch ((sd.result.getD []).take 5)).2 = .ok rs → rs.length ≤ 5 :=
    fun sd rs h => (orcidLoop_recs_le fetch _ rs h).trans (List.length_take_le 5 _)
  unfold orcidHandler
  by_cases hn : strFalsy name
  · simp only [hn, if_true]
    exact ⟨Nat.zero_le 5, fun rs h => by simp at h⟩
  · simp only [hn, if_false, Bool.false_eq_true]
    cases search with
    | error e => exact ⟨Nat.zero_le 5, fun rs h => by simp at h⟩
    | ok sd =>
      by_cases hz : (sd.result.getD []).length = 0
      · simp only [hz, if_true]
        exact ⟨Nat.zero_le 5, fun rs h => by
          simp only [HttpResponse.mk.injEq, OrcidResp.result.injEq] at h
          rw [← h.2]
          exact Nat.zero_le 5⟩
      · simp only [hz, if_false]
        cases hl : (orcidLoop fetch ((sd.result.getD []).take 5)).2 with
        | error e =>
          refine ⟨?_, fun rs h => by simp at h⟩
          exact hcalls sd
        | ok detailed =>
          refine ⟨hcalls sd, fun rs h => ?_⟩
          simp only [HttpResponse.mk.injEq, OrcidResp.result.injEq] at h
          rw [← h.2]
          exact hrecs sd detailed hl

theorem orcid_detail_cap_witness :
    (orcidHandler (some "maria")
        (.ok ⟨some [⟨some ⟨some "id1"⟩⟩, ⟨some ⟨some "id2"⟩⟩, ⟨some ⟨some "id3"⟩⟩,
          ⟨some ⟨some "id4"⟩⟩, ⟨some ⟨some "id5"⟩⟩, ⟨some ⟨some "id6"⟩⟩, ⟨some ⟨some "id7"⟩⟩]⟩)
        (fun _ => .ok ⟨none, none⟩)).detailCalls ≤ 5 ∧
    [mkOrcidRec "id1" ⟨none, none⟩, mkOrcidRec "id2" ⟨none, none⟩,
     mkOrcidRec "id3" ⟨none, none⟩, mkOrcidRec "id4" ⟨none, none⟩,
     mkOrcidRec "id5" ⟨none, none⟩].length ≤ 5 :=
  ⟨(orcid_detail_cap (some "maria")
      (.ok ⟨some [⟨some ⟨some "id1"⟩⟩, ⟨some ⟨some "id2"⟩⟩, ⟨some ⟨some "id3"⟩⟩,
        ⟨some ⟨some "id4"⟩⟩, ⟨some ⟨some "id5"⟩⟩, ⟨some ⟨some "id6"⟩⟩, ⟨some ⟨some "id7"⟩⟩]⟩)
      (fun _ => .ok ⟨none, none⟩)).1,
   (orcid_detail_cap (some "maria")
      (.ok ⟨some [⟨some ⟨some "id1"⟩⟩, ⟨some ⟨some "id2"⟩⟩, ⟨some ⟨some "id3"⟩⟩,
        ⟨some ⟨some "id4"⟩⟩, ⟨some ⟨some "id5"⟩⟩, ⟨some ⟨some "id6"⟩⟩, ⟨some ⟨some "id7"⟩⟩]⟩)
      (fun _ => .ok ⟨none, none⟩)).2
     [mkOrcidRec "id1" ⟨none, none⟩, mkOrcidRec "id2" ⟨none, none⟩,
      mkOrcidRec "id3" ⟨none, none⟩, mkOrcidRec "id4" ⟨none, none⟩,
      mkOrcidRec "id5" ⟨none, none⟩] (by rfl)⟩

/-- C8: when the id-search step yields an empty id list the PubMed handler
responds 200 with `{results: []}` and never issues the summary call —
the outcome is the same for every summary oracle and its summary call
count is 0. -/
theorem pubmed_empty_ids_no_second_call (query : Option String)
    (sd : PubmedSearchData) (es : EsearchResult)
    (summary : Except String PubmedSummaryData)
    (hq : strFalsy query = false)
    (hes : sd.esearchresult = some es)
    (hid : es.idlist = some []) :
    pubmedHandler query (.ok sd) summary = ⟨⟨200, PubmedResp.results []⟩, 1, 0⟩ := by
  simp [pubmedHandler, hq, hes, hid]

theorem pubmed_empty_ids_no_second_call_witness :
    pubmedHandler (some "flu") (.ok ⟨some ⟨some []⟩⟩) (.error "esummary is down") =
      ⟨⟨200, PubmedResp.results []⟩, 1, 0⟩ :=
  pubmed_empty_ids_no_second_call (some "flu") ⟨some ⟨some []⟩⟩ ⟨some []⟩
    (.error "esummary is down") rfl rfl rfl

theorem mapIdxGo_getElem {α β : Type} (f : Nat → α → β) :
    ∀ (l : List α) (k i : Nat), (mapIdxGo f k l)[i]? = (l[i]?).map (f (k + i)) := by
  intro l
  induction l with
  | nil => intro k i; simp [mapIdxGo]
  | cons a as ih =>
    intro k i
    cases i with
    | zero => simp [mapIdxGo]
    | succ j =>
      have hk : k + 1 + j = k + (j + 1) := by omega
      simp only [mapIdxGo, List.getElem?_cons_succ, ih (k + 1) j, hk]

theorem jsMapIdx_getElem {α β : Type} (f : Nat → α → β) (l : List α) (i : Nat) :
    (jsMapIdx f l)[i]? = (l[i]?).map (f i) := by
  simpa [jsMapIdx] using mapIdxGo_getElem f l 0 i

/-- C9: a grants record whose `project_num` is missing or falsy yields, at
the same position `i` of the returned list, a record whose id is
`grant-{i}` and whose url falls back to "#". -/
theorem grants_missing_projectnum_synthesis (query : Option String) (d : GrantsData)
    (gs : List GrantRec) (i : Nat) (g : GrantRec)
    (hres : d.results = some gs)
    (hg : gs[i]? = some g)
    (hfalsy : strFalsy g.projectNum = true) :
    (grantsHandler query (.ok d)).body =
      GrantsResp.results (jsMapIdx (fmtGrant (strOr query "cancer")) gs) ∧
    (jsMapIdx (fmtGrant (strOr query "cancer")) gs)[i]? =
      some (fmtGrant (strOr query "cancer") i g) ∧
    (fmtGrant (strOr query "cancer") i g).id = "grant-" ++ toString i ∧
    (fmtGrant (strOr query "cancer") i g).url = "#" := by
  refine ⟨by simp [grantsHandler, hres], ?_, ?_, ?_⟩
  · rw [jsMapIdx_getElem, hg]
    rfl
  · simp [fmtGrant, strOr_of_falsy _ _ hfalsy]
  · simp [fmtGrant, strOrNull_of_falsy _ hfalsy]

theorem grants_missing_projectnum_synthesis_witness :
    ((grantsHandler none (.ok ⟨some [⟨none, some "Tumor imaging", none, none, none, none⟩]⟩)).body =
      GrantsResp.results (jsMapIdx (fmtGrant (strOr none "cancer"))
        [⟨none, some "Tumor imaging", none, none, none, none⟩])) ∧
    ((jsMapIdx (fmtGrant (strOr none "cancer"))
        [⟨none, some "Tumor imaging", none, none, none, none⟩])[0]? =
      some (fmtGrant (strOr none "cancer") 0 ⟨none, some "Tumor imaging", none, none, none, none⟩)) ∧
    (fmtGrant (strOr none "cancer") 0 ⟨none, some "Tumor imaging", none, none, none, none⟩).id =
      "grant-" ++ toString 0 ∧
    (fmtGrant (strOr none "cancer") 0 ⟨none, some "Tumor imaging", none, none, none, none⟩).url =
      "#" :=
  grants_missing_projectnum_synthesis none
    ⟨some [⟨none, some "Tumor imaging", none, none, none, none⟩]⟩
    [⟨none, some "Tumor imaging", none, none, none, none⟩] 0
    ⟨none, some "Tumor imaging", none, none, none, none⟩ rfl rfl rfl

/-- C1 counterexample: the ResearchGate handler answers a throwing upstream
call with status 200 and the empty success envelope `{results: []}` — not
with a 500 error response. -/
theorem researchgate_upstream_failure_200 :
    researchgateHandler (some "cancer") (.error "ECONNRESET: socket hang up") =
      ⟨200, RGResp.results []⟩ := by
  decide

/-- C1 amended: when an upstream call in its chain throws, every aggregator
handler except ResearchGate responds with exactly its fixed generic 500
error message — independent of the raw upstream error body `e` — while the
ResearchGate handler responds 200 with the empty success envelope. -/
theorem aggregator_upstream_failure (e : String) :
    (∀ (q : Option String) (su : Except String PubmedSummaryData),
      strFalsy q = false →
      (pubmedHandler q (.error e) su).resp = ⟨500, PubmedResp.err "PubMed fetch failed"⟩) ∧
    (∀ (q : Option String) (sd : PubmedSearchData),
      strFalsy q = false →
      ((sd.esearchresult.bind (fun r => r.idlist)).getD []).length ≠ 0 →
      (pubmedHandler q (.ok sd) (.error e)).resp =
        ⟨500, PubmedResp.err "PubMed fetch failed"⟩) ∧
    (∀ c : Option String,
      trialsHandler c (.error e) = ⟨500, TrialsResp.err "Failed to fetch Clinical Trials"⟩) ∧
    (∀ (n : Option String) (fetch : String → Except String OrcidProfile),
      strFalsy n = false →
      (orcidHandler n (.error e) fetch).resp = ⟨500, OrcidResp.err "ORCID fetch failed"⟩) ∧
    (∀ (n : Option String) (sd : OrcidSearchData) (fetch : String → Except String OrcidProfile),
      strFalsy n = false →
      (orcidLoop fetch ((sd.result.getD []).take 5)).2 = .error e →
      (orcidHandler n (.ok sd) fetch).resp = ⟨500, OrcidResp.err "ORCID fetch failed"⟩) ∧
    (∀ (α : Type) (t : Option String),
      strFalsy t = false →
      scholarHandler (α := α) t (.error e) = ⟨500, ScholarResp.err "Scholar fetch failed"⟩) ∧
    (∀ t : Option String,
      strFalsy t = false →
      researchgateHandler t (.error e) = ⟨200, RGResp.results []⟩) ∧
    (∀ t : Option String,
      papersHandler t (.error e) = ⟨500, PapersResp.err "Failed to fetch papers"⟩) ∧
    (∀ q : Option String,
      collaborationsHandler q (.error e) =
        ⟨500, CollabResp.err "Failed to fetch collaborations"⟩) ∧
    (∀ q : Option String,
      grantsHandler q (.error e) = ⟨500, GrantsResp.err "Failed to fetch grants data"⟩) := by
  refine ⟨?_, ?_, ?_, ?_, ?_, ?_, ?_, ?_, ?_, ?_⟩
  · intro q su hq
    simp [pubmedHandler, hq]
  · intro q sd hq hids
    simp [pubmedHandler, hq, hids]
  · intro c
    simp [trialsHandler]
  · intro n fetch hn
    simp [orcidHandler, hn]
  · intro n sd fetch hn hloop
    by_cases hz : (sd.result.getD []).length = 0
    · exfalso
      have : (sd.result.getD []).take 5 = [] := by
        have := List.eq_nil_of_length_eq_zero hz
        simp [this]
      rw [this] at hloop
      simp [orcidLoop] at hloop
    · simp [orcidHandler, hn, hz, hloop]
  · intro α t ht
    simp [scholarHandler, ht]
  · intro t ht
    simp [researchgateHandler, ht]
  · intro t
    simp [papersHandler]
  · intro q
    simp [collaborationsHandler]
  · intro q
    simp [grantsHandler]

theorem aggregator_upstream_failure_witness :
    (pubmedHandler (some "flu") (.error "boom") (.ok ⟨none⟩)).resp =
      ⟨500, PubmedResp.err "PubMed fetch failed"⟩ ∧
    (pubmedHandler (some "flu") (.ok ⟨some ⟨some ["11"]⟩⟩) (.error "boom")).resp =
      ⟨500, PubmedResp.err "PubMed fetch failed"⟩ ∧
    trialsHandler none (.error "boom") =
      ⟨500, TrialsResp.err "Failed to fetch Clinical Trials"⟩ ∧
    (orcidHandler (some "maria") (.error "boom") (fun _ => .ok ⟨none, none⟩)).resp =
      ⟨500, OrcidResp.err "ORCID fetch failed"⟩ ∧
    (orcidHandler (some "maria") (.ok ⟨some [⟨some ⟨some "id1"⟩⟩]⟩)
        (fun _ => .error "boom")).resp =
      ⟨500, OrcidResp.err "ORCID fetch failed"⟩ ∧
    scholarHandler (α := Unit) (some "ai") (.error "boom") =
      ⟨500, ScholarResp.err "Scholar fetch failed"⟩ ∧
    researchgateHandler (some "ai") (.error "boom") = ⟨200, RGResp.results []⟩ ∧
    papersHandler none (.error "boom") = ⟨500, PapersResp.err "Failed to fetch papers"⟩ ∧
    collaborationsHandler none (.error "boom") =
      ⟨500, CollabResp.err "Failed to fetch collaborations"⟩ ∧
    grantsHandler none (.error "boom") =
      ⟨500, GrantsResp.err "Failed to fetch grants data"⟩ :=
  ⟨(aggregator_upstream_failure "boom").1 (some "flu") (.ok ⟨none⟩) rfl,
   (aggregator_upstream_failure "boom").2.1 (some "flu") ⟨some ⟨some ["11"]⟩⟩ rfl (by decide),
   (aggregator_upstream_failure "boom").2.2.1 none,
   (aggregator_upstream_failure "boom").2.2.2.1 (some "maria") (fun _ => .ok ⟨none, none⟩) rfl,
   (aggregator_upstream_failure "boom").2.2.2.2.1 (some "maria") ⟨some [⟨some ⟨some "id1"⟩⟩]⟩
     (fun _ => .error "boom") rfl rfl,
   (aggregator_upstream_failure "boom").2.2.2.2.2.1 Unit (some "ai") rfl,
   (aggregator_upstream_failure "boom").2.2.2.2.2.2.1 (some "ai") rfl,
   (aggregator_upstream_failure "boom").2.2.2.2.2.2.2.1 none,
   (aggregator_upstream_failure "boom").2.2.2.2.2.2.2.2.1 none,
   (aggregator_upstream_failure "boom").2.2.2.2.2.2.2.2.2 none⟩

/-- C2: the summarization endpoint of src/index.js validates its input
(400 "Symptoms required" for absent or whitespace-only symptoms), checks the
key (500 "OpenAI API key not set"), and answers an empty completion with a
single 500 "OpenAI did not return a summary" — but when the completion call
itself throws, the catch block issues a second completion call and logs it,
and the handler sends no HTTP response at all (the failing input of the
code_bug).  The deployed variant (src/unnamed/part_000) does send a single
500 on a throwing call, yet turns an empty completion into a 200 with the
text "No summary generated" and never checks the key. -/
theorem ai_summary_error_paths :
    aiSummaryHandler (some "   ") (some "sk-key") (.ok ⟨none⟩) (.ok ⟨none⟩) =
      ⟨some ⟨400, AiResp.err "Symptoms required"⟩, 0⟩ ∧
    aiSummaryHandler none (some "sk-key") (.ok ⟨none⟩) (.ok ⟨none⟩) =
      ⟨some ⟨400, AiResp.err "Symptoms required"⟩, 0⟩ ∧
    aiSummaryHandler (some "headache") none (.ok ⟨none⟩) (.ok ⟨none⟩) =
      ⟨some ⟨500, AiResp.err "OpenAI API key not set"⟩, 0⟩ ∧
    aiSummaryHandler (some "headache") (some "sk-key")
        (.ok ⟨some [⟨some ⟨some ""⟩⟩]⟩) (.ok ⟨none⟩) =
      ⟨some ⟨500, AiResp.err "OpenAI did not return a summary"⟩, 1⟩ ∧
    aiSummaryHandler (some "headache") (some "sk-key")
        (.error "429 rate limited") (.ok ⟨some [⟨some ⟨some "hello"⟩⟩]⟩) =
      ⟨none, 2⟩ ∧
    aiSummaryDeployed (some "headache") (.error "429 rate limited") =
      ⟨500, AiResp.err "OpenAI API call failed"⟩ ∧
    aiSummaryDeployed (some "headache") (.ok ⟨some [⟨some ⟨some ""⟩⟩]⟩) =
      ⟨200, AiResp.summary "No summary generated"⟩ := by
  refine ⟨?_, rfl, rfl, rfl, rfl, rfl, rfl⟩
  rfl
